import Mathlib

/-!
Shallow embedding of the hackathon team-management API
(`main.py`, `utils.py`, `schemas.py`, models from `models (1).py`).

Conventions of the embedding:
* Timestamps are natural numbers (seconds); `datetime.utcnow()` becomes an
  explicit `now : Nat` argument threaded into each operation.
* The database session is a `DB` value holding the four tables as lists in
  insertion order; SQLAlchemy's `.first()` becomes `List.find?` and
  `.count()` becomes `List.length` of a `List.filter`.
* Randomly generated values (invite token, OTP code) and autoincrement ids
  are explicit arguments of the operations that generate them.
* Each endpoint returns `Except ApiError (result × DB)`: an HTTP 4xx error
  aborts the request before `db.commit()`, so an `ApiError` outcome carries
  no successor state (the session is rolled back / never committed).
* Python truthiness of `Optional[str]` fields (`if invitation.phone:`) is
  modelled by comparing `Option.getD "" ≠ ""`.
-/

namespace InviteHackops

/-- `models.Team` (columns relevant to the API logic). -/
structure Team where
  id : Nat
  name : String
  leader_name : String
  leader_email : String
  description : Option String
  max_members : Nat
deriving Repr, DecidableEq, Inhabited

/-- `models.Member`. -/
structure Member where
  id : Nat
  team_id : Nat
  name : String
  email : String
  phone : Option String
  role : Option String
deriving Repr, DecidableEq, Inhabited

/-- `models.Invitation`. -/
structure Invitation where
  id : Nat
  team_id : Nat
  email : String
  phone : Option String
  token : String
  is_used : Bool
  expires_at : Nat
deriving Repr, DecidableEq, Inhabited

/-- `models.OTP`. -/
structure OTP where
  id : Nat
  phone : String
  otp_code : String
  invitation_token : String
  is_verified : Bool
  expires_at : Nat
deriving Repr, DecidableEq, Inhabited

/-- The database: the four tables, rows in insertion order. -/
structure DB where
  teams : List Team
  members : List Member
  invitations : List Invitation
  otps : List OTP
deriving Repr, DecidableEq, Inhabited

/-- The `detail` payloads of the `HTTPException`s raised in `main.py`. -/
inductive ApiError where
  | teamNotFound
  | teamNameExists
  | leaderEmailExists
  | teamFull (max_members : Nat)
  | memberEmailExists
  | memberNotFound
  | activeInvitationExists
  | emailAlreadyMember
  | invitationNotFound
  | invitationAlreadyUsed
  | invitationExpired
  | noPhoneOnInvitation
  | invalidOtpCode
  | otpExpired
  | otpVerificationRequired
  | internalServerError
deriving Repr, DecidableEq, Inhabited

/-- Request body `schemas.MemberCreate` (phone validated but, as we prove,
ignored by `add_team_member`). -/
structure MemberCreate where
  name : String
  email : String
  phone : Option String
  role : Option String
deriving Repr, DecidableEq, Inhabited

/-- Request body `schemas.InvitationCreate`. -/
structure InvitationCreate where
  email : String
  phone : Option String
deriving Repr, DecidableEq, Inhabited

/-- Request body `schemas.OTPVerify`. -/
structure OTPVerify where
  invitation_token : String
  otp_code : String
deriving Repr, DecidableEq, Inhabited

/-- Request body `schemas.JoinTeamRequest`. -/
structure JoinTeamRequest where
  name : String
  role : Option String
deriving Repr, DecidableEq, Inhabited

/-- `utils.get_invitation_expiry`: 48 hours from now, in seconds. -/
def get_invitation_expiry (now : Nat) : Nat := now + 48 * 3600

/-- `utils.get_otp_expiry`: 10 minutes from now, in seconds. -/
def get_otp_expiry (now : Nat) : Nat := now + 10 * 60

/-- `utils.is_expired`: `datetime.utcnow() > expiry_time`. -/
def is_expired (expiry_time : Nat) (now : Nat) : Bool := now > expiry_time

/-- `utils.format_phone_number`: strip non-digits, prefix with `+`
(both source branches return the same f-string). -/
def format_phone_number (phone : String) : String :=
  let digits := (phone.toList.filter Char.isDigit).asString
  if !(phone.startsWith "+") then "+" ++ digits
  else "+" ++ digits

/-- Python truthiness of an `Optional[str]`: not `None` and not `""`. -/
def optStrTruthy (s : Option String) : Bool := !(s.getD "" == "")

/-- `db.query(Member).filter(Member.team_id == team_id).count()`. -/
def memberCount (db : DB) (team_id : Nat) : Nat :=
  (db.members.filter (fun m => m.team_id == team_id)).length

/-- `db.query(OTP).filter(OTP.invitation_token == token, OTP.is_verified == True).first()`
is not `None`. -/
def has_verified_otp (db : DB) (token : String) : Bool :=
  (db.otps.find? (fun o => o.invitation_token == token && o.is_verified == true)).isSome

/-- The ORM mutation `otp_record.is_verified = True` applied to the row that
`.first()` returned: mark the first unverified row matching (token, code). -/
def setVerifiedFirst (otps : List OTP) (t c : String) : List OTP :=
  match otps with
  | [] => []
  | o :: rest =>
    if o.invitation_token == t && o.otp_code == c && o.is_verified == false then
      { o with is_verified := true } :: rest
    else
      o :: setVerifiedFirst rest t c

/-- The ORM mutation `invitation.is_used = True` applied to the row that
`.first()` returned: mark the first row with the given token. -/
def setUsedFirst (invitations : List Invitation) (token : String) : List Invitation :=
  match invitations with
  | [] => []
  | inv :: rest =>
    if inv.token == token then
      { inv with is_used := true } :: rest
    else
      inv :: setUsedFirst rest token

/-- `POST /api/teams/{team_id}/members/` (`add_team_member` in `main.py`). -/
def add_team_member (db : DB) (team_id : Nat) (member : MemberCreate)
    (new_id : Nat) : Except ApiError (Member × DB) :=
  match db.teams.find? (fun t => t.id == team_id) with
  | none => .error .teamNotFound
  | some db_team =>
    if memberCount db team_id ≥ db_team.max_members then
      .error (.teamFull db_team.max_members)
    else
      match db.members.find? (fun m =>
          m.team_id == team_id && m.email == member.email) with
      | some _ => .error .memberEmailExists
      | none =>
        let db_member : Member :=
          { id := new_id, team_id := team_id, name := member.name,
            email := member.email, phone := none, role := member.role }
        .ok (db_member, { db with members := db.members ++ [db_member] })

/-- `POST /api/teams/{team_id}/invitations/` (`create_invitation` in
`main.py`).  `token`, `otp_code` and the fresh row ids stand for the values
produced by `generate_invite_token` / `generate_otp` / autoincrement. -/
def create_invitation (db : DB) (team_id : Nat) (invitation : InvitationCreate)
    (now : Nat) (token : String) (new_inv_id : Nat) (otp_code : String)
    (new_otp_id : Nat) : Except ApiError (Invitation × DB) :=
  match db.teams.find? (fun t => t.id == team_id) with
  | none => .error .teamNotFound
  | some db_team =>
    if memberCount db team_id ≥ db_team.max_members then
      .error (.teamFull db_team.max_members)
    else
      match db.invitations.find? (fun inv =>
          inv.team_id == team_id && inv.email == invitation.email &&
          inv.is_used == false && decide (inv.expires_at > now)) with
      | some _ => .error .activeInvitationExists
      | none =>
        match db.members.find? (fun m =>
            m.team_id == team_id && m.email == invitation.email) with
        | some _ => .error .emailAlreadyMember
        | none =>
          let formatted_phone : Option String :=
            if optStrTruthy invitation.phone then
              some (format_phone_number (invitation.phone.getD ""))
            else none
          let db_invitation : Invitation :=
            { id := new_inv_id, team_id := team_id, email := invitation.email,
              phone := formatted_phone, token := token, is_used := false,
              expires_at := get_invitation_expiry now }
          let db1 : DB := { db with invitations := db.invitations ++ [db_invitation] }
          match formatted_phone with
          | some p =>
            let db_otp : OTP :=
              { id := new_otp_id, phone := p, otp_code := otp_code,
                invitation_token := token, is_verified := false,
                expires_at := get_otp_expiry now }
            .ok (db_invitation, { db1 with otps := db1.otps ++ [db_otp] })
          | none => .ok (db_invitation, db1)

/-- `POST /api/invitations/{token}/resend-otp` (`resend_otp` in `main.py`).
On success returns the phone and the new OTP expiry (the `OTPResponse`). -/
def resend_otp (db : DB) (token : String) (now : Nat) (otp_code : String)
    (new_otp_id : Nat) : Except ApiError ((String × Nat) × DB) :=
  match db.invitations.find? (fun inv => inv.token == token) with
  | none => .error .invitationNotFound
  | some invitation =>
    if !(optStrTruthy invitation.phone) then
      .error .noPhoneOnInvitation
    else if invitation.is_used then
      .error .invitationAlreadyUsed
    else if is_expired invitation.expires_at now then
      .error .invitationExpired
    else
      let remaining := db.otps.filter (fun o =>
        !(o.invitation_token == token && o.is_verified == false))
      let db_otp : OTP :=
        { id := new_otp_id, phone := invitation.phone.getD "",
          otp_code := otp_code, invitation_token := token,
          is_verified := false, expires_at := get_otp_expiry now }
      .ok ((invitation.phone.getD "", get_otp_expiry now),
           { db with otps := remaining ++ [db_otp] })

/-- `POST /api/invitations/verify-otp` (`verify_otp` in `main.py`). -/
def verify_otp (db : DB) (otp_data : OTPVerify) (now : Nat) :
    Except ApiError (Bool × DB) :=
  match db.otps.find? (fun o =>
      o.invitation_token == otp_data.invitation_token &&
      o.otp_code == otp_data.otp_code && o.is_verified == false) with
  | none => .error .invalidOtpCode
  | some otp_record =>
    if is_expired otp_record.expires_at now then
      .error .otpExpired
    else
      .ok (true,
        { db with otps :=
            setVerifiedFirst db.otps otp_data.invitation_token otp_data.otp_code })

/-- `POST /api/invitations/{token}/join` (`join_team_via_invitation` in
`main.py`).  The unguarded `team.max_members` attribute access on a `None`
team (unreachable through the API thanks to the FK cascade) is modelled as
`internalServerError`. -/
def join_team_via_invitation (db : DB) (token : String)
    (join_data : JoinTeamRequest) (now : Nat) (new_id : Nat) :
    Except ApiError (Member × DB) :=
  match db.invitations.find? (fun inv => inv.token == token) with
  | none => .error .invitationNotFound
  | some invitation =>
    if invitation.is_used then
      .error .invitationAlreadyUsed
    else if is_expired invitation.expires_at now then
      .error .invitationExpired
    else if optStrTruthy invitation.phone && !(has_verified_otp db token) then
      .error .otpVerificationRequired
    else
      match db.teams.find? (fun t => t.id == invitation.team_id) with
      | none => .error .internalServerError
      | some team =>
        if memberCount db invitation.team_id ≥ team.max_members then
          .error (.teamFull team.max_members)
        else
          let db_member : Member :=
            { id := new_id, team_id := invitation.team_id,
              name := join_data.name, email := invitation.email,
              phone := invitation.phone, role := join_data.role }
          .ok (db_member,
            { db with members := db.members ++ [db_member],
                      invitations := setUsedFirst db.invitations token })

/-! ### Concrete fixtures (used by witness and counterexample theorems) -/

/-- Team 1: capacity 2, no members yet. -/
def teamA : Team := ⟨1, "Alpha", "Lia", "lia@x.io", none, 2⟩

/-- Team 2: capacity 1, already full (memberBob). -/
def teamB : Team := ⟨2, "Beta", "Max", "max@x.io", none, 1⟩

def memberBob : Member := ⟨3, 2, "Bob", "bob@x.io", none, none⟩

/-- Unused, unexpired (at now = 100) invitation with a phone, token "tokP". -/
def invPhone : Invitation := ⟨4, 1, "eve@x.io", some "+15551234567", "tokP", false, 1000⟩

/-- Unused, unexpired invitation without phone, token "tokN". -/
def invPlain : Invitation := ⟨5, 1, "pam@x.io", none, "tokN", false, 1000⟩

/-- Already-used invitation, token "tokU". -/
def invUsed : Invitation := ⟨6, 2, "uma@x.io", none, "tokU", true, 1000⟩

/-- Unused, unexpired invitation into the full team 2, token "tokF". -/
def invFull : Invitation := ⟨7, 2, "fay@x.io", none, "tokF", false, 1000⟩

/-- Expired (at now = 100) unused invitation, token "tokO". -/
def invOld : Invitation := ⟨8, 1, "old@x.io", some "+15550000000", "tokO", false, 50⟩

/-- A verified OTP for "tokP" whose own expiry (10) is already past at now = 100. -/
def otpVerified : OTP := ⟨9, "+15551234567", "123456", "tokP", true, 10⟩

/-- An unverified, unexpired OTP for "tokP". -/
def otpFresh : OTP := ⟨10, "+15551234567", "654321", "tokP", false, 2000⟩

/-- Unused, unexpired invitation with a phone but no OTP rows, token "tokQ". -/
def invQ : Invitation := ⟨11, 1, "quy@x.io", some "+15551112222", "tokQ", false, 1000⟩

def wDb : DB :=
  ⟨[teamA, teamB], [memberBob], [invPhone, invPlain, invUsed, invFull, invOld, invQ],
   [otpVerified, otpFresh]⟩

/-- A member-creation request that does supply a phone number. -/
def wMC : MemberCreate := ⟨"Ann", "ann@x.io", some "+19998887777", none⟩

def wJD : JoinTeamRequest := ⟨"Eve", none⟩

/-- Duplicate-invitation request: `invPhone` is still active for this
(team 1, email) pair at now = 100. -/
def wReqDup : InvitationCreate := ⟨"eve@x.io", none⟩

/-- Fresh-invitation request (new email, phone supplied). -/
def wReqNew : InvitationCreate := ⟨"new@x.io", some "+15553334444"⟩

/-- Boundary fixtures: a team with room and a single unused invitation whose
`expires_at` equals the current instant (100). -/
def cTeam : Team := ⟨1, "Gamma", "Gil", "gil@x.io", none, 5⟩

def cInv : Invitation := ⟨1, 1, "eve@x.io", none, "tokC", false, 100⟩

def cDb : DB := ⟨[cTeam], [], [cInv], []⟩

def cReq : InvitationCreate := ⟨"eve@x.io", none⟩

/-- OTP submission matching the unverified `otpFresh` row. -/
def wOV : OTPVerify := ⟨"tokP", "654321"⟩

/-- OTP submission with a code matching no unverified row. -/
def wOVbad : OTPVerify := ⟨"tokP", "000000"⟩

/-- The (successful) result of verifying `wOV` against `wDb` at now = 100. -/
def wVerifyRes : Bool × DB := (verify_otp wDb wOV 100).toOption.getD default

/-- The (successful) result of adding `wMC` to team 1 of `wDb`. -/
def wAddRes : Member × DB := (add_team_member wDb 1 wMC 11).toOption.getD default

/-- The (successful) result of joining via "tokP" at now = 100. -/
def wJoinRes : Member × DB :=
  (join_team_via_invitation wDb "tokP" wJD 100 12).toOption.getD default

/-! ### Theorems -/

/-- Inversion of a successful direct member add. -/
theorem add_team_member_ok (db : DB) (team_id : Nat) (member : MemberCreate)
    (new_id : Nat) (m : Member) (db' : DB)
    (h : add_team_member db team_id member new_id = Except.ok (m, db')) :
    ∃ db_team,
      db.teams.find? (fun t => t.id == team_id) = some db_team ∧
      memberCount db team_id < db_team.max_members ∧
      db.members.find? (fun x => x.team_id == team_id && x.email == member.email)
        = none ∧
      m = { id := new_id, team_id := team_id, name := member.name,
            email := member.email, phone := none, role := member.role } ∧
      db' = { db with members := db.members ++ [m] } := by
  unfold add_team_member at h
  split at h
  · exact Except.noConfusion h
  · next db_team hfind =>
    split at h
    · exact Except.noConfusion h
    · next hge =>
      split at h
      · exact Except.noConfusion h
      · next hmem =>
        injection h with h
        injection h with hm hdb
        subst hm
        subst hdb
        exact ⟨db_team, hfind, Nat.lt_of_not_le hge, hmem, rfl, rfl⟩

/-- Inversion of a successful invitation creation. -/
theorem create_invitation_ok (db : DB) (team_id : Nat) (req : InvitationCreate)
    (now : Nat) (token : String) (new_inv_id : Nat) (otp_code : String)
    (new_otp_id : Nat) (r : Invitation) (db' : DB)
    (h : create_invitation db team_id req now token new_inv_id otp_code new_otp_id
          = Except.ok (r, db')) :
    ∃ db_team,
      db.teams.find? (fun t => t.id == team_id) = some db_team ∧
      memberCount db team_id < db_team.max_members ∧
      db.invitations.find? (fun inv =>
        inv.team_id == team_id && inv.email == req.email &&
        inv.is_used == false && decide (inv.expires_at > now)) = none ∧
      db.members.find? (fun x => x.team_id == team_id && x.email == req.email)
        = none ∧
      r.team_id = team_id ∧ r.email = req.email ∧ r.token = token ∧
      r.is_used = false ∧ r.expires_at = get_invitation_expiry now ∧
      db'.teams = db.teams ∧ db'.members = db.members ∧
      db'.invitations = db.invitations ++ [r] := by
  unfold create_invitation at h
  split at h
  · exact Except.noConfusion h
  · next db_team hfind =>
    split at h
    · exact Except.noConfusion h
    · next hge =>
      split at h
      · exact Except.noConfusion h
      · next hact =>
        split at h
        · exact Except.noConfusion h
        · next hmem =>
          dsimp only at h
          split at h
          · next p hp =>
            injection h with h
            injection h with hr hdb
            subst hr
            subst hdb
            exact ⟨db_team, hfind, Nat.lt_of_not_le hge, hact, hmem,
              rfl, rfl, rfl, rfl, rfl, rfl, rfl, rfl⟩
          · next hp =>
            injection h with h
            injection h with hr hdb
            subst hr
            subst hdb
            exact ⟨db_team, hfind, Nat.lt_of_not_le hge, hact, hmem,
              rfl, rfl, rfl, rfl, rfl, rfl, rfl, rfl⟩

/-- Inversion of a successful OTP resend. -/
theorem resend_otp_ok (db : DB) (token : String) (now : Nat) (otp_code : String)
    (new_otp_id : Nat) (r : String × Nat) (db' : DB)
    (h : resend_otp db token now otp_code new_otp_id = Except.ok (r, db')) :
    ∃ inv,
      db.invitations.find? (fun i => i.token == token) = some inv ∧
      optStrTruthy inv.phone = true ∧
      inv.is_used = false ∧
      is_expired inv.expires_at now = false ∧
      db'.teams = db.teams ∧ db'.members = db.members ∧
      db'.invitations = db.invitations := by
  unfold resend_otp at h
  split at h
  · exact Except.noConfusion h
  · next inv hfind =>
    split at h
    · exact Except.noConfusion h
    · next hphone =>
      split at h
      · exact Except.noConfusion h
      · next hused =>
        split at h
        · exact Except.noConfusion h
        · next hexp =>
          injection h with h
          injection h with hr hdb
          subst hdb
          refine ⟨inv, hfind, ?_, ?_, ?_, rfl, rfl, rfl⟩
          · simpa using hphone
          · simpa using hused
          · simpa using hexp

/-- Inversion of a successful OTP verification. -/
theorem verify_otp_ok (db : DB) (otp_data : OTPVerify) (now : Nat) (b : Bool)
    (db' : DB) (h : verify_otp db otp_data now = Except.ok (b, db')) :
    ∃ o,
      db.otps.find? (fun x =>
        x.invitation_token == otp_data.invitation_token &&
        x.otp_code == otp_data.otp_code && x.is_verified == false) = some o ∧
      is_expired o.expires_at now = false ∧
      b = true ∧
      db' = { db with otps :=
        setVerifiedFirst db.otps otp_data.invitation_token otp_data.otp_code } := by
  unfold verify_otp at h
  split at h
  · exact Except.noConfusion h
  · next o hfind =>
    split at h
    · exact Except.noConfusion h
    · next hexp =>
      injection h with h
      injection h with hb hdb
      subst hdb
      exact ⟨o, hfind, by simpa using hexp, hb.symm, rfl⟩

/-- Inversion of a successful invitation join. -/
theorem join_team_via_invitation_ok (db : DB) (token : String)
    (join_data : JoinTeamRequest) (now new_id : Nat) (m : Member) (db' : DB)
    (h : join_team_via_invitation db token join_data now new_id
          = Except.ok (m, db')) :
    ∃ inv team,
      db.invitations.find? (fun i => i.token == token) = some inv ∧
      inv.is_used = false ∧
      is_expired inv.expires_at now = false ∧
      (optStrTruthy inv.phone && !(has_verified_otp db token)) = false ∧
      db.teams.find? (fun t => t.id == inv.team_id) = some team ∧
      memberCount db inv.team_id < team.max_members ∧
      m = { id := new_id, team_id := inv.team_id, name := join_data.name,
            email := inv.email, phone := inv.phone, role := join_data.role } ∧
      db' = { db with members := db.members ++ [m],
                      invitations := setUsedFirst db.invitations token } := by
  unfold join_team_via_invitation at h
  split at h
  · exact Except.noConfusion h
  · next inv hfind =>
    split at h
    · exact Except.noConfusion h
    · next hused =>
      split at h
      · exact Except.noConfusion h
      · next hexp =>
        split at h
        · exact Except.noConfusion h
        · next hotp =>
          split at h
          · exact Except.noConfusion h
          · next team hteam =>
            split at h
            · exact Except.noConfusion h
            · next hge =>
              injection h with h
              injection h with hm hdb
              subst hm
              subst hdb
              exact ⟨inv, team, hfind, by simpa using hused, by simpa using hexp,
                by simpa using hotp, hteam, Nat.lt_of_not_le hge, rfl, rfl⟩

/-- An invitation record that is already used survives `setUsedFirst`
unchanged. -/
theorem mem_setUsedFirst_of_used (l : List Invitation) (token : String)
    (inv : Invitation) (hmem : inv ∈ l) (h : inv.is_used = true) :
    inv ∈ setUsedFirst l token := by
  induction l with
  | nil => simp at hmem
  | cons a rest ih =>
    simp only [setUsedFirst]
    rcases List.mem_cons.mp hmem with rfl | hmem2
    · split
      · have heta : ({ inv with is_used := true } : Invitation) = inv := by
          cases inv
          simp_all
        rw [heta]
        exact List.mem_cons_self _ _
      · exact List.mem_cons_self _ _
    · split
      · exact List.mem_cons_of_mem _ hmem2
      · exact List.mem_cons_of_mem _ (ih hmem2)

/-- The invitation row returned by the token lookup gets marked used by
`setUsedFirst`. -/
theorem found_mem_setUsedFirst (l : List Invitation) (token : String)
    (inv : Invitation)
    (hf : l.find? (fun i => i.token == token) = some inv) :
    { inv with is_used := true } ∈ setUsedFirst l token := by
  induction l with
  | nil => simp at hf
  | cons a rest ih =>
    simp only [setUsedFirst]
    by_cases hc : (a.token == token) = true
    · simp only [List.find?_cons, hc] at hf
      injection hf with hf
      subst hf
      rw [if_pos hc]
      exact List.mem_cons_self _ _
    · rw [if_neg hc]
      rw [Bool.not_eq_true] at hc
      simp only [List.find?_cons, hc] at hf
      exact List.mem_cons_of_mem _ (ih hf)

/-- The OTP row returned by the (token, code, unverified) lookup gets marked
verified by `setVerifiedFirst`. -/
theorem found_mem_setVerifiedFirst (l : List OTP) (t c : String) (o : OTP)
    (hf : l.find? (fun x =>
      x.invitation_token == t && x.otp_code == c && x.is_verified == false)
        = some o) :
    { o with is_verified := true } ∈ setVerifiedFirst l t c := by
  induction l with
  | nil => simp at hf
  | cons a rest ih =>
    simp only [setVerifiedFirst]
    by_cases hc :
        (a.invitation_token == t && a.otp_code == c && a.is_verified == false)
          = true
    · simp only [List.find?_cons, hc] at hf
      injection hf with hf
      subst hf
      rw [if_pos hc]
      exact List.mem_cons_self _ _
    · rw [if_neg hc]
      rw [Bool.not_eq_true] at hc
      simp only [List.find?_cons, hc] at hf
      exact List.mem_cons_of_mem _ (ih hf)

/-- C10: `format_phone_number` returns `+` followed by exactly the digit
characters of the input in order, whether or not the input starts with `+`
(the two source branches return the same value), and is therefore
idempotent. -/
theorem format_phone_number_digits_and_idempotent (s : String) :
    format_phone_number s = "+" ++ (s.toList.filter Char.isDigit).asString ∧
    format_phone_number (format_phone_number s) = format_phone_number s := by
  have head : ∀ t : String,
      format_phone_number t = "+" ++ (t.toList.filter Char.isDigit).asString := by
    intro t
    unfold format_phone_number
    exact ite_self _
  refine ⟨head s, ?_⟩
  rw [head s, head ("+" ++ (s.toList.filter Char.isDigit).asString)]
  congr 1
  have h2 : ("+" ++ (s.toList.filter Char.isDigit).asString).toList
      = "+".toList ++ ((s.toList.filter Char.isDigit).asString).toList := rfl
  rw [h2, List.toList_asString]
  have h3 : "+".toList ++ s.toList.filter Char.isDigit
      = '+' :: s.toList.filter Char.isDigit := rfl
  rw [h3, List.filter_cons]
  simp [List.filter_filter]

/-- C9: a member created through the direct member-add endpoint always has
`phone = none` (the validated request phone is silently discarded), while a
member created through invitation join carries the invitation's phone. -/
theorem member_phone_provenance (db : DB) :
    (∀ team_id member new_id m db',
        add_team_member db team_id member new_id = Except.ok (m, db') →
        m.phone = none) ∧
    (∀ token join_data now new_id m db',
        join_team_via_invitation db token join_data now new_id = Except.ok (m, db') →
        ∃ inv, db.invitations.find? (fun i => i.token == token) = some inv ∧
          m.phone = inv.phone) := by
  constructor
  · intro team_id member new_id m db' h
    unfold add_team_member at h
    split at h
    · exact Except.noConfusion h
    · split at h
      · exact Except.noConfusion h
      · split at h
        · exact Except.noConfusion h
        · injection h with h
          injection h with hm _
          rw [← hm]
  · intro token join_data now new_id m db' h
    unfold join_team_via_invitation at h
    split at h
    · exact Except.noConfusion h
    · next inv hfind =>
      refine ⟨inv, hfind, ?_⟩
      split at h
      · exact Except.noConfusion h
      · split at h
        · exact Except.noConfusion h
        · split at h
          · exact Except.noConfusion h
          · split at h
            · exact Except.noConfusion h
            · split at h
              · exact Except.noConfusion h
              · injection h with h
                injection h with hm _
                rw [← hm]

/-- Witness for C9 at concrete inputs: the add result has no phone even
though `wMC` supplied one, and the join result carries `invPhone`'s phone. -/
theorem member_phone_provenance_witness :
    wAddRes.1.phone = none ∧
    ∃ inv, wDb.invitations.find? (fun i => i.token == "tokP") = some inv ∧
      wJoinRes.1.phone = inv.phone :=
  ⟨(member_phone_provenance wDb).1 1 wMC 11 wAddRes.1 wAddRes.2 rfl,
   (member_phone_provenance wDb).2 "tokP" wJD 100 12 wJoinRes.1 wJoinRes.2 rfl⟩

/-- C1: whenever a team is at or above capacity, the direct member-add
rejects with the team-full error, and the invitation join rejects with the
team-full error once its earlier invitation checks pass; every successful
add or join grows the team's member count by exactly one and only happens
below capacity, so the count stays ≤ `max_members`. -/
theorem team_capacity_bound (db : DB) :
    (∀ team_id member new_id db_team,
        db.teams.find? (fun t => t.id == team_id) = some db_team →
        memberCount db team_id ≥ db_team.max_members →
        add_team_member db team_id member new_id =
          Except.error (.teamFull db_team.max_members)) ∧
    (∀ team_id member new_id m db',
        add_team_member db team_id member new_id = Except.ok (m, db') →
        ∃ db_team, db.teams.find? (fun t => t.id == team_id) = some db_team ∧
          memberCount db team_id < db_team.max_members ∧
          memberCount db' team_id = memberCount db team_id + 1 ∧
          memberCount db' team_id ≤ db_team.max_members) ∧
    (∀ token join_data now new_id inv team,
        db.invitations.find? (fun i => i.token == token) = some inv →
        inv.is_used = false →
        is_expired inv.expires_at now = false →
        (optStrTruthy inv.phone && !(has_verified_otp db token)) = false →
        db.teams.find? (fun t => t.id == inv.team_id) = some team →
        memberCount db inv.team_id ≥ team.max_members →
        join_team_via_invitation db token join_data now new_id =
          Except.error (.teamFull team.max_members)) ∧
    (∀ token join_data now new_id m db',
        join_team_via_invitation db token join_data now new_id = Except.ok (m, db') →
        ∃ inv team,
          db.invitations.find? (fun i => i.token == token) = some inv ∧
          db.teams.find? (fun t => t.id == inv.team_id) = some team ∧
          memberCount db inv.team_id < team.max_members ∧
          memberCount db' inv.team_id = memberCount db inv.team_id + 1 ∧
          memberCount db' inv.team_id ≤ team.max_members) := by
  refine ⟨?_, ?_, ?_, ?_⟩
  · intro team_id member new_id db_team hfind hge
    unfold add_team_member
    rw [hfind]
    dsimp only
    rw [if_pos hge]
  · intro team_id member new_id m db' h
    unfold add_team_member at h
    split at h
    · exact Except.noConfusion h
    · next db_team hfind =>
      split at h
      · exact Except.noConfusion h
      · next hge =>
        split at h
        · exact Except.noConfusion h
        · next hmem =>
          injection h with h
          injection h with hm hdb
          have hlt : memberCount db team_id < db_team.max_members :=
            Nat.lt_of_not_le hge
          have hstep : memberCount db' team_id = memberCount db team_id + 1 := by
            rw [← hdb]
            simp [memberCount, List.filter_append]
          refine ⟨db_team, hfind, hlt, hstep, ?_⟩
          rw [hstep]
          exact Nat.succ_le_of_lt hlt
  · intro token join_data now new_id inv team hfind hused hexp hotp hteam hge
    unfold join_team_via_invitation
    rw [hfind]
    dsimp only
    rw [if_neg (by simp [hused]), if_neg (by simp [hexp]), if_neg (by simp [hotp]),
        hteam]
    dsimp only
    rw [if_pos hge]
  · intro token join_data now new_id m db' h
    unfold join_team_via_invitation at h
    split at h
    · exact Except.noConfusion h
    · next inv hfind =>
      split at h
      · exact Except.noConfusion h
      · split at h
        · exact Except.noConfusion h
        · split at h
          · exact Except.noConfusion h
          · split at h
            · exact Except.noConfusion h
            · next team hteam =>
              split at h
              · exact Except.noConfusion h
              · next hge =>
                injection h with h
                injection h with hm hdb
                have hlt : memberCount db inv.team_id < team.max_members :=
                  Nat.lt_of_not_le hge
                have hstep :
                    memberCount db' inv.team_id = memberCount db inv.team_id + 1 := by
                  rw [← hdb]
                  simp [memberCount, List.filter_append]
                refine ⟨inv, team, hfind, hteam, hlt, hstep, ?_⟩
                rw [hstep]
                exact Nat.succ_le_of_lt hlt

/-- Witness for C1: the full team 2 of `wDb` rejects both a direct add and
the join via "tokF" with the team-full error, and the successful add / join
into team 1 each grow that team's count by one, staying within capacity. -/
theorem team_capacity_bound_witness :
    add_team_member wDb 2 wMC 11 = Except.error (.teamFull 1) ∧
    (∃ db_team, wDb.teams.find? (fun t => t.id == 1) = some db_team ∧
       memberCount wDb 1 < db_team.max_members ∧
       memberCount wAddRes.2 1 = memberCount wDb 1 + 1 ∧
       memberCount wAddRes.2 1 ≤ db_team.max_members) ∧
    join_team_via_invitation wDb "tokF" wJD 100 12 = Except.error (.teamFull 1) ∧
    (∃ inv team,
       wDb.invitations.find? (fun i => i.token == "tokP") = some inv ∧
       wDb.teams.find? (fun t => t.id == inv.team_id) = some team ∧
       memberCount wDb inv.team_id < team.max_members ∧
       memberCount wJoinRes.2 inv.team_id = memberCount wDb inv.team_id + 1 ∧
       memberCount wJoinRes.2 inv.team_id ≤ team.max_members) :=
  ⟨(team_capacity_bound wDb).1 2 wMC 11 teamB rfl (by decide),
   (team_capacity_bound wDb).2.1 1 wMC 11 wAddRes.1 wAddRes.2 rfl,
   (team_capacity_bound wDb).2.2.1 "tokF" wJD 100 12 invFull teamB rfl rfl rfl
     (by decide) rfl (by decide),
   (team_capacity_bound wDb).2.2.2 "tokP" wJD 100 12 wJoinRes.1 wJoinRes.2 rfl⟩

/-- C2: a used invitation is terminal: a join on its token is rejected with
the already-used error (no member is created: the request aborts without a
committed state), and no operation ever resets `is_used` to `false` — every
used invitation record survives every successful operation unchanged. -/
theorem used_invitation_terminal (db : DB) :
    (∀ token join_data now new_id inv,
        db.invitations.find? (fun i => i.token == token) = some inv →
        inv.is_used = true →
        join_team_via_invitation db token join_data now new_id =
          Except.error .invitationAlreadyUsed) ∧
    (∀ inv, inv ∈ db.invitations → inv.is_used = true →
      (∀ team_id member new_id m db',
          add_team_member db team_id member new_id = Except.ok (m, db') →
          inv ∈ db'.invitations) ∧
      (∀ team_id req now tok new_inv_id otp_code new_otp_id r db',
          create_invitation db team_id req now tok new_inv_id otp_code new_otp_id
            = Except.ok (r, db') →
          inv ∈ db'.invitations) ∧
      (∀ tok now otp_code new_otp_id r db',
          resend_otp db tok now otp_code new_otp_id = Except.ok (r, db') →
          inv ∈ db'.invitations) ∧
      (∀ otp_data now b db',
          verify_otp db otp_data now = Except.ok (b, db') →
          inv ∈ db'.invitations) ∧
      (∀ tok join_data now new_id m db',
          join_team_via_invitation db tok join_data now new_id = Except.ok (m, db') →
          inv ∈ db'.invitations)) := by
  constructor
  · intro token join_data now new_id inv hfind hused
    unfold join_team_via_invitation
    rw [hfind]
    dsimp only
    rw [if_pos hused]
  · intro inv hmem hused
    refine ⟨?_, ?_, ?_, ?_, ?_⟩
    · intro team_id member new_id m db' h
      obtain ⟨_, _, _, _, _, hdb⟩ := add_team_member_ok db team_id member new_id m db' h
      rw [hdb]
      exact hmem
    · intro team_id req now tok new_inv_id otp_code new_otp_id r db' h
      obtain ⟨_, _, _, _, _, _, _, _, _, _, _, _, hinvs⟩ :=
        create_invitation_ok db team_id req now tok new_inv_id otp_code new_otp_id
          r db' h
      rw [hinvs]
      exact List.mem_append_left _ hmem
    · intro tok now otp_code new_otp_id r db' h
      obtain ⟨_, _, _, _, _, _, _, hinvs⟩ :=
        resend_otp_ok db tok now otp_code new_otp_id r db' h
      rw [hinvs]
      exact hmem
    · intro otp_data now b db' h
      obtain ⟨_, _, _, _, hdb⟩ := verify_otp_ok db otp_data now b db' h
      rw [hdb]
      exact hmem
    · intro tok join_data now new_id m db' h
      obtain ⟨_, _, _, _, _, _, _, _, _, hdb⟩ :=
        join_team_via_invitation_ok db tok join_data now new_id m db' h
      rw [hdb]
      exact mem_setUsedFirst_of_used db.invitations tok inv hmem hused

/-- Witness for C2: joining on the used token "tokU" of `wDb` is rejected,
and the used record `invUsed` is still present (still used) after the
successful join via "tokP". -/
theorem used_invitation_terminal_witness :
    join_team_via_invitation wDb "tokU" wJD 100 12 =
      Except.error .invitationAlreadyUsed ∧
    invUsed ∈ wJoinRes.2.invitations :=
  ⟨(used_invitation_terminal wDb).1 "tokU" wJD 100 12 invUsed rfl rfl,
   ((used_invitation_terminal wDb).2 invUsed (by decide) rfl).2.2.2.2 "tokP"
     wJD 100 12 wJoinRes.1 wJoinRes.2 rfl⟩

/-- C3: the join operation evaluates its checks in source order — lookup,
`is_used`, expiry, OTP verification (only when the phone is truthy), team
capacity — and only then inserts the member and consumes the invitation; in
particular a valid-but-capacity-blocked join reports team-full, while a used
or expired invitation is reported as such no matter the team's fullness. -/
theorem join_check_precedence (db : DB) (token : String)
    (join_data : JoinTeamRequest) (now new_id : Nat) :
    (db.invitations.find? (fun i => i.token == token) = none →
        join_team_via_invitation db token join_data now new_id =
          Except.error .invitationNotFound) ∧
    (∀ inv, db.invitations.find? (fun i => i.token == token) = some inv →
        inv.is_used = true →
        join_team_via_invitation db token join_data now new_id =
          Except.error .invitationAlreadyUsed) ∧
    (∀ inv, db.invitations.find? (fun i => i.token == token) = some inv →
        inv.is_used = false →
        is_expired inv.expires_at now = true →
        join_team_via_invitation db token join_data now new_id =
          Except.error .invitationExpired) ∧
    (∀ inv, db.invitations.find? (fun i => i.token == token) = some inv →
        inv.is_used = false →
        is_expired inv.expires_at now = false →
        optStrTruthy inv.phone = true →
        has_verified_otp db token = false →
        join_team_via_invitation db token join_data now new_id =
          Except.error .otpVerificationRequired) ∧
    (∀ inv team, db.invitations.find? (fun i => i.token == token) = some inv →
        inv.is_used = false →
        is_expired inv.expires_at now = false →
        (optStrTruthy inv.phone && !(has_verified_otp db token)) = false →
        db.teams.find? (fun t => t.id == inv.team_id) = some team →
        memberCount db inv.team_id ≥ team.max_members →
        join_team_via_invitation db token join_data now new_id =
          Except.error (.teamFull team.max_members)) ∧
    (∀ inv team, db.invitations.find? (fun i => i.token == token) = some inv →
        inv.is_used = false →
        is_expired inv.expires_at now = false →
        (optStrTruthy inv.phone && !(has_verified_otp db token)) = false →
        db.teams.find? (fun t => t.id == inv.team_id) = some team →
        memberCount db inv.team_id < team.max_members →
        join_team_via_invitation db token join_data now new_id =
          Except.ok
            ({ id := new_id, team_id := inv.team_id, name := join_data.name,
               email := inv.email, phone := inv.phone, role := join_data.role },
             { db with
                 members := db.members ++
                   [{ id := new_id, team_id := inv.team_id, name := join_data.name,
                      email := inv.email, phone := inv.phone,
                      role := join_data.role }],
                 invitations := setUsedFirst db.invitations token })) := by
  refine ⟨?_, ?_, ?_, ?_, ?_, ?_⟩
  · intro hfind
    unfold join_team_via_invitation
    rw [hfind]
  · intro inv hfind hused
    unfold join_team_via_invitation
    rw [hfind]
    dsimp only
    rw [if_pos hused]
  · intro inv hfind hused hexp
    unfold join_team_via_invitation
    rw [hfind]
    dsimp only
    rw [if_neg (by simp [hused]), if_pos hexp]
  · intro inv hfind hused hexp hphone hotp
    unfold join_team_via_invitation
    rw [hfind]
    dsimp only
    rw [if_neg (by simp [hused]), if_neg (by simp [hexp]),
        if_pos (by rw [hphone, hotp]; rfl)]
  · intro inv team hfind hused hexp hotp hteam hge
    unfold join_team_via_invitation
    rw [hfind]
    dsimp only
    rw [if_neg (by simp [hused]), if_neg (by simp [hexp]), if_neg (by simp [hotp]),
        hteam]
    dsimp only
    rw [if_pos hge]
  · intro inv team hfind hused hexp hotp hteam hlt
    unfold join_team_via_invitation
    rw [hfind]
    dsimp only
    rw [if_neg (by simp [hused]), if_neg (by simp [hexp]), if_neg (by simp [hotp]),
        hteam]
    dsimp only
    rw [if_neg (Nat.not_le.mpr hlt)]

/-- Witness for C3 on `wDb` at now = 100: each of the six branches fires at
a concrete token — unknown token, used "tokU", expired "tokO",
OTP-pending "tokQ", capacity-blocked "tokF", and the successful "tokP". -/
theorem join_check_precedence_witness :
    join_team_via_invitation wDb "nope" wJD 100 12 =
      Except.error .invitationNotFound ∧
    join_team_via_invitation wDb "tokU" wJD 100 12 =
      Except.error .invitationAlreadyUsed ∧
    join_team_via_invitation wDb "tokO" wJD 100 12 =
      Except.error .invitationExpired ∧
    join_team_via_invitation wDb "tokQ" wJD 100 12 =
      Except.error .otpVerificationRequired ∧
    join_team_via_invitation wDb "tokF" wJD 100 12 =
      Except.error (.teamFull 1) ∧
    join_team_via_invitation wDb "tokP" wJD 100 12 =
      Except.ok
        ({ id := 12, team_id := invPhone.team_id, name := wJD.name,
           email := invPhone.email, phone := invPhone.phone, role := wJD.role },
         { wDb with
             members := wDb.members ++
               [{ id := 12, team_id := invPhone.team_id, name := wJD.name,
                  email := invPhone.email, phone := invPhone.phone,
                  role := wJD.role }],
             invitations := setUsedFirst wDb.invitations "tokP" }) :=
  ⟨(join_check_precedence wDb "nope" wJD 100 12).1 rfl,
   (join_check_precedence wDb "tokU" wJD 100 12).2.1 invUsed rfl rfl,
   (join_check_precedence wDb "tokO" wJD 100 12).2.2.1 invOld rfl rfl rfl,
   (join_check_precedence wDb "tokQ" wJD 100 12).2.2.2.1 invQ rfl rfl rfl rfl
     (by decide),
   (join_check_precedence wDb "tokF" wJD 100 12).2.2.2.2.1 invFull teamB rfl rfl
     rfl (by decide) rfl (by decide),
   (join_check_precedence wDb "tokP" wJD 100 12).2.2.2.2.2 invPhone teamA rfl rfl
     rfl (by decide) rfl (by decide)⟩

/-- C4: when the invitation's phone is set, join demands some OTP row for
the token with `is_verified = true` — rejecting with the OTP-required error
when none exists, and passing the gate even if the verified OTP's own
`expires_at` has long passed (no expiry re-check at join time); when the
phone is `none`, join reads the OTP table not at all: its outcome, up to the
untouched `otps` field, is the same for any OTP table contents. -/
theorem join_otp_gate (db : DB) (token : String) (join_data : JoinTeamRequest)
    (now new_id : Nat) :
    (∀ inv p, db.invitations.find? (fun i => i.token == token) = some inv →
        inv.is_used = false →
        is_expired inv.expires_at now = false →
        inv.phone = some p → p ≠ "" →
        has_verified_otp db token = false →
        join_team_via_invitation db token join_data now new_id =
          Except.error .otpVerificationRequired) ∧
    (∀ o, o ∈ db.otps → o.invitation_token = token → o.is_verified = true →
        ¬(join_team_via_invitation db token join_data now new_id =
            Except.error .otpVerificationRequired)) ∧
    (∀ inv, db.invitations.find? (fun i => i.token == token) = some inv →
        inv.phone = none →
        ∀ otps1 otps2 : List OTP,
          Except.map (fun r : Member × DB => (r.1, { r.2 with otps := [] }))
            (join_team_via_invitation { db with otps := otps1 } token join_data
              now new_id) =
          Except.map (fun r : Member × DB => (r.1, { r.2 with otps := [] }))
            (join_team_via_invitation { db with otps := otps2 } token join_data
              now new_id)) := by
  refine ⟨?_, ?_, ?_⟩
  · intro inv p hfind hused hexp hphone hp hotp
    unfold join_team_via_invitation
    rw [hfind]
    dsimp only
    rw [if_neg (by simp [hused]), if_neg (by simp [hexp])]
    have hc : (optStrTruthy inv.phone && !(has_verified_otp db token)) = true := by
      rw [hphone, hotp]
      simp [optStrTruthy, hp]
    rw [if_pos hc]
  · intro o hmem htok hver
    have hv : has_verified_otp db token = true := by
      unfold has_verified_otp
      exact List.find?_isSome.mpr ⟨o, hmem, by simp [htok, hver]⟩
    unfold join_team_via_invitation
    split
    · simp
    · split
      · simp
      · split
        · simp
        · split
          · next hcond =>
            rw [hv] at hcond
            simp at hcond
          · split
            · simp
            · split
              · simp
              · simp
  · intro inv hfind hphone otps1 otps2
    have hp : optStrTruthy inv.phone = false := by rw [hphone]; rfl
    unfold join_team_via_invitation
    dsimp only
    rw [hfind]
    dsimp only [memberCount]
    rw [hp]
    simp only [Bool.false_and, Bool.false_eq_true, if_false]
    split
    · rfl
    · split
      · rfl
      · split
        · rfl
        · split
          · rfl
          · rfl

/-- Witness for C4 on `wDb` at now = 100: "tokQ" (phone set, no OTP rows) is
rejected with OTP-required; "tokP" passes the gate on the strength of
`otpVerified`, whose own expiry (10) is already past; and for the
phone-less "tokN" the outcome ignores the OTP table entirely. -/
theorem join_otp_gate_witness :
    join_team_via_invitation wDb "tokQ" wJD 100 12 =
      Except.error .otpVerificationRequired ∧
    ¬(join_team_via_invitation wDb "tokP" wJD 100 12 =
        Except.error .otpVerificationRequired) ∧
    Except.map (fun r : Member × DB => (r.1, { r.2 with otps := [] }))
      (join_team_via_invitation { wDb with otps := wDb.otps } "tokN" wJD 100 12) =
    Except.map (fun r : Member × DB => (r.1, { r.2 with otps := [] }))
      (join_team_via_invitation { wDb with otps := [] } "tokN" wJD 100 12) :=
  ⟨(join_otp_gate wDb "tokQ" wJD 100 12).1 invQ "+15551112222" rfl rfl rfl rfl
     (by decide) (by decide),
   (join_otp_gate wDb "tokP" wJD 100 12).2.1 otpVerified (by decide) rfl rfl,
   (join_otp_gate wDb "tokN" wJD 100 12).2.2 invPlain rfl rfl wDb.otps []⟩

/-- C5: verify-OTP succeeds (returning `verified = true` and marking the
matched row verified) only when some OTP row matches the submitted token and
code, is unverified, and is unexpired; when no unverified row matches, it
returns the invalid-code error; and in every outcome the invitation table
(and the other tables) are left untouched. -/
theorem verify_otp_spec (db : DB) (otp_data : OTPVerify) (now : Nat) :
    ((¬∃ o, o ∈ db.otps ∧ o.invitation_token = otp_data.invitation_token ∧
        o.otp_code = otp_data.otp_code ∧ o.is_verified = false) →
      verify_otp db otp_data now = Except.error .invalidOtpCode) ∧
    (∀ b db', verify_otp db otp_data now = Except.ok (b, db') →
      b = true ∧
      (∃ o, o ∈ db.otps ∧ o.invitation_token = otp_data.invitation_token ∧
         o.otp_code = otp_data.otp_code ∧ o.is_verified = false ∧
         is_expired o.expires_at now = false ∧
         { o with is_verified := true } ∈ db'.otps) ∧
      db'.invitations = db.invitations ∧ db'.teams = db.teams ∧
      db'.members = db.members) := by
  constructor
  · intro hno
    have hnone : db.otps.find? (fun x =>
        x.invitation_token == otp_data.invitation_token &&
        x.otp_code == otp_data.otp_code && x.is_verified == false) = none := by
      rw [List.find?_eq_none]
      intro x hx hp
      simp only [Bool.and_eq_true, beq_iff_eq] at hp
      exact hno ⟨x, hx, hp.1.1, hp.1.2, by simpa using hp.2⟩
    unfold verify_otp
    rw [hnone]
  · intro b db' h
    obtain ⟨o, hfind, hexp, hb, hdb⟩ := verify_otp_ok db otp_data now b db' h
    subst hdb
    have hmem : o ∈ db.otps := List.mem_of_find?_eq_some hfind
    have hp := List.find?_some hfind
    simp only [Bool.and_eq_true, beq_iff_eq] at hp
    refine ⟨hb, ⟨o, hmem, hp.1.1, hp.1.2, by simpa using hp.2, hexp,
      found_mem_setVerifiedFirst db.otps otp_data.invitation_token
        otp_data.otp_code o hfind⟩, rfl, rfl, rfl⟩

/-- Witness for C5: on `wDb` at now = 100, submitting the non-matching code
"000000" yields the invalid-code error, while submitting "654321" (matching
the unverified, unexpired `otpFresh`) succeeds with `verified = true`. -/
theorem verify_otp_spec_witness :
    verify_otp wDb wOVbad 100 = Except.error .invalidOtpCode ∧
    wVerifyRes.1 = true :=
  ⟨(verify_otp_spec wDb wOVbad 100).1 (by decide),
   ((verify_otp_spec wDb wOV 100).2 wVerifyRes.1 wVerifyRes.2 rfl).1⟩

/-- C6: an invitation whose `expires_at` lies in the past is rejected by
both join and resend-OTP with an error, regardless of `is_used` (the error
aborts the request, so no member is created and no OTP row is written). -/
theorem expired_invitation_rejected (db : DB) (token : String)
    (join_data : JoinTeamRequest) (now new_id : Nat) (otp_code : String)
    (new_otp_id : Nat) :
    ∀ inv, db.invitations.find? (fun i => i.token == token) = some inv →
      is_expired inv.expires_at now = true →
      (∃ e, join_team_via_invitation db token join_data now new_id =
         Except.error e) ∧
      (∃ e, resend_otp db token now otp_code new_otp_id = Except.error e) := by
  intro inv hfind hexp
  constructor
  · by_cases hused : inv.is_used = true
    · exact ⟨.invitationAlreadyUsed, by
        unfold join_team_via_invitation
        rw [hfind]
        dsimp only
        rw [if_pos hused]⟩
    · exact ⟨.invitationExpired, by
        unfold join_team_via_invitation
        rw [hfind]
        dsimp only
        rw [if_neg hused, if_pos hexp]⟩
  · cases hph : optStrTruthy inv.phone with
    | false => exact ⟨.noPhoneOnInvitation, by
        unfold resend_otp
        rw [hfind]
        dsimp only
        rw [if_pos (by rw [hph]; rfl)]⟩
    | true =>
      by_cases hused : inv.is_used = true
      · exact ⟨.invitationAlreadyUsed, by
          unfold resend_otp
          rw [hfind]
          dsimp only
          rw [if_neg (by rw [hph]; simp), if_pos hused]⟩
      · exact ⟨.invitationExpired, by
          unfold resend_otp
          rw [hfind]
          dsimp only
          rw [if_neg (by rw [hph]; simp), if_neg hused, if_pos hexp]⟩

/-- Witness for C6: the expired invitation "tokO" of `wDb` (expiry 50, now
100) is rejected by both join and resend-OTP. -/
theorem expired_invitation_rejected_witness :
    (∃ e, join_team_via_invitation wDb "tokO" wJD 100 12 = Except.error e) ∧
    (∃ e, resend_otp wDb "tokO" 100 "111111" 13 = Except.error e) :=
  expired_invitation_rejected wDb "tokO" wJD 100 12 "111111" 13 invOld rfl rfl

/-- C8: a successful join performs exactly the two writes — appending the
new member and marking the looked-up invitation used — and nothing else
(teams and OTPs untouched); an error outcome aborts the request before the
single `db.commit()`, so no partial state exists by construction of the
transaction model. -/
theorem join_atomic_success (db : DB) (token : String)
    (join_data : JoinTeamRequest) (now new_id : Nat) :
    ∀ m db', join_team_via_invitation db token join_data now new_id =
        Except.ok (m, db') →
      db'.members = db.members ++ [m] ∧
      db'.invitations = setUsedFirst db.invitations token ∧
      (∃ inv, db.invitations.find? (fun i => i.token == token) = some inv ∧
         inv.is_used = false ∧ { inv with is_used := true } ∈ db'.invitations) ∧
      db'.teams = db.teams ∧ db'.otps = db.otps := by
  intro m db' h
  obtain ⟨inv, team, hfind, hused, _, _, _, _, hm, hdb⟩ :=
    join_team_via_invitation_ok db token join_data now new_id m db' h
  subst hdb
  exact ⟨rfl, rfl, ⟨inv, hfind, hused,
    found_mem_setUsedFirst db.invitations token inv hfind⟩, rfl, rfl⟩

/-- Witness for C8 at the successful join via "tokP" on `wDb`: both writes
are present in the committed state and the other tables are unchanged. -/
theorem join_atomic_success_witness :
    wJoinRes.2.members = wDb.members ++ [wJoinRes.1] ∧
    wJoinRes.2.invitations = setUsedFirst wDb.invitations "tokP" ∧
    (∃ inv, wDb.invitations.find? (fun i => i.token == "tokP") = some inv ∧
       inv.is_used = false ∧ { inv with is_used := true } ∈ wJoinRes.2.invitations) ∧
    wJoinRes.2.teams = wDb.teams ∧ wJoinRes.2.otps = wDb.otps :=
  join_atomic_success wDb "tokP" wJD 100 12 wJoinRes.1 wJoinRes.2 rfl

/-- C7 counterexample: at now = 100 the invitation `cInv` is unused and NOT
expired in the spec's sense (`is_expired 100 100 = false`, so it still
joins), yet creating a second invitation for the same (team, email)
succeeds — the duplicate guard tests `expires_at > now` strictly, so an
invitation expiring exactly at the current instant no longer blocks
duplicates. -/
theorem create_invitation_boundary_counterexample :
    cInv ∈ cDb.invitations ∧ cInv.team_id = 1 ∧ cInv.email = cReq.email ∧
    cInv.is_used = false ∧ is_expired cInv.expires_at 100 = false ∧
    create_invitation cDb 1 cReq 100 "tokD" 2 "000000" 3 =
      Except.ok (⟨2, 1, "eve@x.io", none, "tokD", false, get_invitation_expiry 100⟩,
        { cDb with invitations := cDb.invitations ++
            [⟨2, 1, "eve@x.io", none, "tokD", false, get_invitation_expiry 100⟩] }) :=
  ⟨by decide, rfl, rfl, rfl, rfl, rfl⟩

/-- C7 (amended): with "active" read as the creation guard reads it —
`is_used = false` and `expires_at` STRICTLY greater than now (an invitation
expiring exactly at the current instant is not yet expired for join but no
longer blocks duplicates) — creating a second invitation for the same
(team, email) while an active one exists fails with the
active-invitation-exists error, and when none is active (e.g. the previous
one is used or past expiry) and the email is not yet a member, creation
succeeds, appending a fresh unused invitation that is itself active. -/
theorem create_invitation_active_guard (db : DB) (team_id : Nat)
    (req : InvitationCreate) (now : Nat) (token : String) (new_inv_id : Nat)
    (otp_code : String) (new_otp_id : Nat) (db_team : Team)
    (hteam : db.teams.find? (fun t => t.id == team_id) = some db_team)
    (hcap : memberCount db team_id < db_team.max_members) :
    ((∃ inv, inv ∈ db.invitations ∧ inv.team_id = team_id ∧
        inv.email = req.email ∧ inv.is_used = false ∧ inv.expires_at > now) →
      create_invitation db team_id req now token new_inv_id otp_code new_otp_id =
        Except.error .activeInvitationExists) ∧
    ((∀ inv, inv ∈ db.invitations → inv.team_id = team_id →
        inv.email = req.email → inv.is_used = false →
        ¬(inv.expires_at > now)) →
      db.members.find? (fun m => m.team_id == team_id && m.email == req.email)
        = none →
      ∃ r db', create_invitation db team_id req now token new_inv_id otp_code
          new_otp_id = Except.ok (r, db') ∧
        r.is_used = false ∧ r.expires_at > now ∧ r.team_id = team_id ∧
        r.email = req.email ∧ db'.invitations = db.invitations ++ [r]) := by
  constructor
  · intro hex
    obtain ⟨inv, hmem, h1, h2, h3, h4⟩ := hex
    have hsome : (db.invitations.find? (fun inv =>
        inv.team_id == team_id && inv.email == req.email &&
        inv.is_used == false && decide (inv.expires_at > now))).isSome = true :=
      List.find?_isSome.mpr ⟨inv, hmem, by simp [h1, h2, h3, h4]⟩
    obtain ⟨y, hy⟩ := Option.isSome_iff_exists.mp hsome
    unfold create_invitation
    rw [hteam]
    dsimp only
    rw [if_neg (Nat.not_le.mpr hcap), hy]
  · intro hall hnomem
    have hnone : db.invitations.find? (fun inv =>
        inv.team_id == team_id && inv.email == req.email &&
        inv.is_used == false && decide (inv.expires_at > now)) = none := by
      rw [List.find?_eq_none]
      intro x hx hp
      simp only [Bool.and_eq_true, beq_iff_eq, decide_eq_true_eq] at hp
      exact hall x hx hp.1.1.1 hp.1.1.2 (by simpa using hp.1.2) hp.2
    unfold create_invitation
    rw [hteam]
    dsimp only
    rw [if_neg (Nat.not_le.mpr hcap), hnone]
    dsimp only
    rw [hnomem]
    dsimp only
    cases hph : optStrTruthy req.phone with
    | true =>
      refine ⟨_, _, rfl, rfl, ?_, rfl, rfl, rfl⟩
      dsimp only
      unfold get_invitation_expiry
      omega
    | false =>
      refine ⟨_, _, rfl, rfl, ?_, rfl, rfl, rfl⟩
      dsimp only
      unfold get_invitation_expiry
      omega

/-- Witness for the amended C7 on `wDb` at now = 100: a duplicate request
for the still-active `invPhone` (team 1, "eve@x.io") is rejected, while a
request for a fresh email succeeds and appends an active invitation. -/
theorem create_invitation_active_guard_witness :
    create_invitation wDb 1 wReqDup 100 "tokX" 20 "111111" 21 =
      Except.error .activeInvitationExists ∧
    (∃ r db', create_invitation wDb 1 wReqNew 100 "tokY" 22 "222222" 23 =
        Except.ok (r, db') ∧ r.is_used = false ∧ r.expires_at > 100 ∧
        r.team_id = 1 ∧ r.email = wReqNew.email ∧
        db'.invitations = wDb.invitations ++ [r]) :=
  ⟨(create_invitation_active_guard wDb 1 wReqDup 100 "tokX" 20 "111111" 21 teamA
      rfl (by decide)).1 ⟨invPhone, by decide, rfl, rfl, rfl, by decide⟩,
   (create_invitation_active_guard wDb 1 wReqNew 100 "tokY" 22 "222222" 23 teamA
      rfl (by decide)).2 (by decide) rfl⟩

end InviteHackops
